import Mathlib

set_option maxRecDepth 40000

/-!
Verification of the authentication core of the auth-boilerplate repository.

The TypeScript handlers are embedded shallowly:
  * JavaScript strings are `List Char` (`JStr`); `String.prototype.split` with a
    one-character separator is `splitOnChar`.
  * The persistent store (the `users` and `password_reset_tokens` tables) is an
    explicit `Db` value; drizzle `select/update/insert` become `filter`, `map`
    and append, each handler returns its result together with the store it
    leaves behind.
  * Calls into the Node `crypto` module (`createHash('sha256')`, `pbkdf2Sync`,
    HMAC) and into the serialisation built-ins (`JSON.stringify`/`parse`,
    base64url) are external to the repository; the handlers take them as
    function parameters, and concrete model instances (`modelSha256Hex`, ...)
    idealising them as distinct injective digests with the real output lengths
    are supplied when a theorem is evaluated on concrete inputs.
  * `randomBytes` salts/tokens and `Date.now()` are passed in as arguments.
  * Thrown `Error`s become `Except.error` with the thrown message.
-/

/-- JavaScript strings, modelled as lists of characters. -/
abbrev JStr := List Char

/-- Model of JavaScript `s.split(sep)` for a one-character separator: on the
empty string it yields `[""]`, a separator at the end yields a trailing `""`,
exactly as in JS. -/
def splitOnChar (sep : Char) : List Char → List (List Char)
  | [] => [[]]
  | c :: rest =>
    if c = sep then [] :: splitOnChar sep rest
    else
      match splitOnChar sep rest with
      | [] => [[c]]
      | r :: rs => (c :: r) :: rs

/-- Injective positional encoding of a character list into a natural number
(base is the number of Unicode scalar values), used by the model digests. -/
def encodeStr : JStr → Nat
  | [] => 0
  | c :: rest => 1 + c.toNat + 1114112 * encodeStr rest

/-- `w` hex characters taken from the base-16 digits of `n`: the shape of a
hex-encoded digest of fixed byte length. -/
def hexDigits (w : Nat) (n : Nat) : JStr :=
  (List.range w).map (fun i => Nat.digitChar (n / 16 ^ i % 16))

/-- Model of `createHash('sha256').update(s).digest('hex')`: 64 hex chars,
domain-separated from the other model digests by the leading tag. -/
def modelSha256Hex (s : JStr) : JStr :=
  hexDigits 64 (encodeStr ('s' :: s))

/-- Model of `pbkdf2Sync(password, salt, 10000, 64, 'sha256').toString('hex')`:
128 hex chars. -/
def modelPbkdf2Sha256Hex (password salt : JStr) : JStr :=
  hexDigits 128 (encodeStr ('2' :: (password ++ ('/' :: salt))))

/-- Model of `pbkdf2Sync(password, salt, 10000, 64, 'sha512').toString('hex')`:
128 hex chars, distinct from the sha256 variant. -/
def modelPbkdf2Sha512Hex (password salt : JStr) : JStr :=
  hexDigits 128 (encodeStr ('5' :: (password ++ ('/' :: salt))))

/-- Model of `createHash('sha256').update(s).digest('base64url')`: 43 chars of
the base64url alphabet (hex is a subalphabet, which is all the proofs use:
no '.' and nonempty). -/
def modelSha256B64url (s : JStr) : JStr :=
  hexDigits 43 (encodeStr ('b' :: s))

/-- Model of `createHmac('sha256', key).update(msg).digest('base64url')`. -/
def modelHmacSha256B64url (key msg : JStr) : JStr :=
  hexDigits 43 (encodeStr ('h' :: (key ++ ('/' :: msg))))

/-- A row of the `users` table (db/schema.ts `usersTable`). -/
structure User where
  id : Nat
  email : JStr
  username : JStr
  password_hash : JStr
  first_name : Option JStr
  last_name : Option JStr
  is_admin : Bool
  is_active : Bool
  email_verified : Bool
  last_login : Option Nat
  created_at : Nat
  updated_at : Nat
  deriving DecidableEq

/-- A row of the `password_reset_tokens` table. -/
structure ResetTokenRow where
  id : Nat
  user_id : Nat
  token : JStr
  expires_at : Nat
  used : Bool
  created_at : Nat
  deriving DecidableEq

/-- The durable store: both tables, plus the serial id counters. -/
structure Db where
  users : List User
  resetTokens : List ResetTokenRow
  nextUserId : Nat
  nextTokenId : Nat
  deriving DecidableEq

/-- schema.ts `PublicUser`: a user record without the `password_hash` field. -/
structure PublicUser where
  id : Nat
  email : JStr
  username : JStr
  first_name : Option JStr
  last_name : Option JStr
  is_admin : Bool
  is_active : Bool
  email_verified : Bool
  last_login : Option Nat
  created_at : Nat
  updated_at : Nat
  deriving DecidableEq

/-- The projection every handler applies before returning a user. -/
def publicOf (u : User) : PublicUser :=
  { id := u.id, email := u.email, username := u.username, first_name := u.first_name,
    last_name := u.last_name, is_admin := u.is_admin, is_active := u.is_active,
    email_verified := u.email_verified, last_login := u.last_login,
    created_at := u.created_at, updated_at := u.updated_at }

/-- schema.ts `SuccessResponse`. -/
structure SuccessResponse where
  success : Bool
  message : Option String
  deriving DecidableEq

/-- schema.ts `JwtPayload` (the claims object handlers receive; the optional
`iat`/`exp` members are never read by any handler and are omitted). -/
structure JwtPayload where
  user_id : Nat
  email : JStr
  is_admin : Bool
  deriving DecidableEq

/-- The full claims set carried inside a token: `JwtPayload` plus `iat`/`exp`. -/
structure JwtClaims where
  user_id : Nat
  email : JStr
  is_admin : Bool
  iat : Nat
  exp : Nat
  deriving DecidableEq

/-- schema.ts `AuthResponse`. -/
structure AuthResponse where
  user : PublicUser
  token : JStr
  deriving DecidableEq

/-- `db.update(usersTable).set(...).where(eq(usersTable.id, id))`. -/
def updateUserRow (db : Db) (id : Nat) (f : User → User) : Db :=
  { db with users := db.users.map (fun u => if u.id = id then f u else u) }

/-- server/src/index.ts: the constant payload the placeholder auth middleware
injects into the context. -/
def mockJwtPayload : JwtPayload :=
  { user_id := 1, email := "user@example.com".toList, is_admin := false }

/-- server/src/index.ts `authenticatedProcedure`: the middleware ignores the
request (it never reads the Authorization header) and installs
`mockJwtPayload` as `ctx.user`. -/
def authenticatedCtx (_authHeader : Option JStr) : JwtPayload :=
  mockJwtPayload

/-- server/src/index.ts `adminProcedure`: the admin check over the context. -/
def adminGate (ctx : JwtPayload) : Except String JwtPayload :=
  if ctx.is_admin then Except.ok ctx else Except.error "Admin access required"

/-- The composed admin pipeline: authenticate (placeholder), then gate. -/
def adminPipeline (authHeader : Option JStr) : Except String JwtPayload :=
  adminGate (authenticatedCtx authHeader)

namespace ChangePassword

/-- handlers/change_password.ts `hashPassword`: bare salted SHA-256 of
`password + salt`. -/
def hashPassword (sha256Hex : JStr → JStr) (password salt : JStr) : JStr :=
  sha256Hex (password ++ salt)

/-- Node `crypto.timingSafeEqual`: throws a RangeError when the buffers have
different lengths, otherwise compares them. -/
def timingSafeEqual (a b : JStr) : Except String Bool :=
  if a.length = b.length then Except.ok (decide (a = b))
  else Except.error "Input buffers must have the same byte length"

/-- handlers/change_password.ts `verifyPassword`: split the stored secret on
the first `:`; a missing or empty component verifies false; `timingSafeEqual`
is reached only behind the `&&` length guard. -/
def verifyPassword (sha256Hex : JStr → JStr) (password hashedPassword : JStr) :
    Except String Bool :=
  match splitOnChar ':' hashedPassword with
  | salt :: hash :: _ =>
    if salt = [] ∨ hash = [] then Except.ok false
    else
      let expectedHash := hashPassword sha256Hex password salt
      if expectedHash.length = hash.length then timingSafeEqual expectedHash hash
      else Except.ok false
  | _ => Except.ok false

/-- handlers/change_password.ts `createPasswordHash`: fresh salt (passed in for
`randomBytes(32).toString('hex')`), stored as `salt:hash`. -/
def createPasswordHash (sha256Hex : JStr → JStr) (password salt : JStr) : JStr :=
  salt ++ (':' :: hashPassword sha256Hex password salt)

end ChangePassword

namespace Login

/-- handlers/login.ts `hashPassword`: PBKDF2-SHA256, 10000 iterations, keylen
64, stored as `salt:hash`. -/
def hashPassword (pbkdf2Sha256Hex : JStr → JStr → JStr) (password salt : JStr) : JStr :=
  salt ++ (':' :: pbkdf2Sha256Hex password salt)

/-- handlers/login.ts `verifyPassword`: split on `:`, guard empty components,
recompute PBKDF2-SHA256 and compare. -/
def verifyPassword (pbkdf2Sha256Hex : JStr → JStr → JStr) (password storedHash : JStr) :
    Bool :=
  match splitOnChar ':' storedHash with
  | salt :: hash :: _ =>
    if salt = [] ∨ hash = [] then false
    else decide (hash = pbkdf2Sha256Hex password salt)
  | _ => false

end Login

/-- handlers/login.ts `generateJWT`: base64url-encoded header and payload, and
a signature that is a plain SHA-256 of `header.payload.secret` rendered in
base64url. `encPayload` stands for `base64url(JSON.stringify(payload))`. -/
def generateJWT (encPayload : JwtClaims → JStr) (sha256B64url : JStr → JStr)
    (headerEnc : JStr) (payload : JwtClaims) (secret : JStr) : JStr :=
  let encodedPayload := encPayload payload
  let signature := sha256B64url (headerEnc ++ ('.' :: (encodedPayload ++ ('.' :: secret))))
  headerEnc ++ ('.' :: (encodedPayload ++ ('.' :: signature)))

/-- handlers/login.ts `verifyJWT`: destructure the first three `.`-separated
parts, reject empty parts, recompute and compare the signature, decode the
payload (`decPayload` models `JSON.parse` of the base64url-decoded part; a
parse failure is a thrown error), then apply the truthiness-guarded expiry
check `payload.exp && payload.exp < now`. -/
def verifyJWT (decPayload : JStr → Option JwtClaims) (sha256B64url : JStr → JStr)
    (token secret : JStr) (now : Nat) : Except String JwtClaims :=
  match splitOnChar '.' token with
  | encodedHeader :: encodedPayload :: signature :: _ =>
    if encodedHeader = [] ∨ encodedPayload = [] ∨ signature = [] then
      Except.error "Invalid token format"
    else if signature = sha256B64url (encodedHeader ++ ('.' :: (encodedPayload ++ ('.' :: secret)))) then
      match decPayload encodedPayload with
      | none => Except.error "Unexpected token in JSON"
      | some payload =>
        if payload.exp ≠ 0 ∧ payload.exp < now then Except.error "Token expired"
        else Except.ok payload
    else Except.error "Invalid token signature"
  | _ => Except.error "Invalid token format"

namespace Login

/-- schema.ts `LoginInput`. -/
structure LoginInput where
  email : JStr
  password : JStr

/-- handlers/login.ts `login`: select by email, verify the password with the
PBKDF2-SHA256 `verifyPassword` above, check `is_active`, bump
`last_login`/`updated_at`, and return the public user (with `last_login`
replaced by the current time, the other fields from the pre-update row) plus a
7-day token from `generateJWT`. -/
def login (pbkdf2Sha256Hex : JStr → JStr → JStr) (encPayload : JwtClaims → JStr)
    (sha256B64url : JStr → JStr) (headerEnc jwtSecret : JStr)
    (db : Db) (input : LoginInput) (now : Nat) : Except String AuthResponse × Db :=
  match db.users.filter (fun u => decide (u.email = input.email)) with
  | [] => (Except.error "Invalid email or password", db)
  | user :: _ =>
    if verifyPassword pbkdf2Sha256Hex input.password user.password_hash then
      if user.is_active then
        let db1 := updateUserRow db user.id
          (fun u => { u with last_login := some now, updated_at := now })
        let tokenPayload : JwtClaims :=
          { user_id := user.id, email := user.email, is_admin := user.is_admin,
            iat := now, exp := now + 7 * 24 * 60 * 60 }
        let token := generateJWT encPayload sha256B64url headerEnc tokenPayload jwtSecret
        (Except.ok { user := { publicOf user with last_login := some now }, token := token }, db1)
      else (Except.error "Account is inactive", db)
    else (Except.error "Invalid email or password", db)

end Login

namespace Register

/-- handlers/register.ts `hashPassword`: PBKDF2-SHA512, 10000 iterations,
keylen 64, stored as `salt:hash`. -/
def hashPassword (pbkdf2Sha512Hex : JStr → JStr → JStr) (password salt : JStr) : JStr :=
  salt ++ (':' :: pbkdf2Sha512Hex password salt)

/-- handlers/register.ts `createJWT`: HMAC-SHA256 over `header.payload` keyed
by the secret; the `expiresIn` argument is ignored by the source, which
hardcodes 24 hours. -/
def createJWT (encPayload : JwtClaims → JStr) (hmacSha256B64url : JStr → JStr → JStr)
    (headerEnc : JStr) (payload : JwtPayload) (secret : JStr) (now : Nat) : JStr :=
  let jwtPayload : JwtClaims :=
    { user_id := payload.user_id, email := payload.email, is_admin := payload.is_admin,
      iat := now, exp := now + 24 * 60 * 60 }
  let encodedPayload := encPayload jwtPayload
  let signature := hmacSha256B64url secret (headerEnc ++ ('.' :: encodedPayload))
  headerEnc ++ ('.' :: (encodedPayload ++ ('.' :: signature)))

/-- schema.ts `RegisterInput` (names are nullable, not optional). -/
structure RegisterInput where
  email : JStr
  username : JStr
  password : JStr
  first_name : Option JStr
  last_name : Option JStr

/-- handlers/register.ts `register`: one `or(email, username)` lookup with
`limit(1)`; on a hit, report whichever field the first hit collides on;
otherwise insert the new row with `is_admin=false, is_active=true,
email_verified=false` and return the public user plus a token. -/
def register (pbkdf2Sha512Hex : JStr → JStr → JStr) (encPayload : JwtClaims → JStr)
    (hmacSha256B64url : JStr → JStr → JStr) (headerEnc jwtSecret : JStr)
    (db : Db) (input : RegisterInput) (now : Nat) (salt : JStr) :
    Except String AuthResponse × Db :=
  match db.users.filter (fun u => decide (u.email = input.email ∨ u.username = input.username)) with
  | existingUser :: _ =>
    let existingField := if existingUser.email = input.email then "email" else "username"
    (Except.error ("User with this " ++ existingField ++ " already exists"), db)
  | [] =>
    let password_hash := hashPassword pbkdf2Sha512Hex input.password salt
    let user : User :=
      { id := db.nextUserId, email := input.email, username := input.username,
        password_hash := password_hash, first_name := input.first_name,
        last_name := input.last_name, is_admin := false, is_active := true,
        email_verified := false, last_login := none, created_at := now, updated_at := now }
    let db1 : Db := { db with users := db.users ++ [user], nextUserId := db.nextUserId + 1 }
    let token := createJWT encPayload hmacSha256B64url headerEnc
      { user_id := user.id, email := user.email, is_admin := user.is_admin } jwtSecret now
    (Except.ok { user := publicOf user, token := token }, db1)

end Register

namespace AdminCreateUser

/-- handlers/admin_create_user.ts, step 3: the inline hash
`salt + ':' + sha256(salt + password)` — note the reversed concatenation
order relative to change_password.ts. -/
def password_hash (sha256Hex : JStr → JStr) (salt password : JStr) : JStr :=
  salt ++ (':' :: sha256Hex (salt ++ password))

end AdminCreateUser

namespace ResetPassword

/-- schema.ts `ResetPasswordInput`. -/
structure ResetPasswordInput where
  token : JStr
  new_password : JStr

/-- handlers/reset_password.ts `resetPassword`: select the token row by its
string; then, on the loaded row, check `used`, check `expires_at < now`,
hash the new password with PBKDF2-SHA512, update the owning user, and mark
the row used. -/
def resetPassword (pbkdf2Sha512Hex : JStr → JStr → JStr) (db : Db)
    (input : ResetPasswordInput) (now : Nat) (salt : JStr) :
    Except String SuccessResponse × Db :=
  match db.resetTokens.filter (fun r => decide (r.token = input.token)) with
  | [] => (Except.error "Invalid or expired reset token", db)
  | resetToken :: _ =>
    if resetToken.used then (Except.error "This reset token has already been used", db)
    else if resetToken.expires_at < now then (Except.error "Reset token has expired", db)
    else
      let passwordWithSalt := salt ++ (':' :: pbkdf2Sha512Hex input.new_password salt)
      let db1 := updateUserRow db resetToken.user_id
        (fun u => { u with password_hash := passwordWithSalt, updated_at := now })
      let marked := db1.resetTokens.map
        (fun r => if r.id = resetToken.id then { r with used := true } else r)
      let db2 : Db := { db1 with resetTokens := marked }
      let response : SuccessResponse :=
        { success := true,
          message := some "Password has been reset successfully. Please log in with your new password." }
      (Except.ok response, db2)

end ResetPassword

namespace ForgotPassword

/-- handlers/forgot_password.ts `forgotPassword`: the response object is built
before the branch and returned in both arms; when the email matches a user, a
reset token row (expiry now + 1 hour, `used=false`) is inserted first. `tok`
stands for `randomBytes(32).toString('hex')`. -/
def forgotPassword (db : Db) (email : JStr) (tok : JStr) (now : Nat) :
    Except String SuccessResponse × Db :=
  let response : SuccessResponse :=
    { success := true,
      message := some "If an account with that email exists, a password reset link has been sent." }
  match db.users.filter (fun u => decide (u.email = email)) with
  | [] => (Except.ok response, db)
  | user :: _ =>
    let row : ResetTokenRow :=
      { id := db.nextTokenId, user_id := user.id, token := tok,
        expires_at := now + 3600, used := false, created_at := now }
    (Except.ok response,
     { db with resetTokens := db.resetTokens ++ [row], nextTokenId := db.nextTokenId + 1 })

end ForgotPassword

namespace AdminUpdateUser

/-- schema.ts `AdminUpdateUserInput`: `email`/`username` optional,
`first_name`/`last_name` optional and nullable, the booleans optional. -/
structure AdminUpdateUserInput where
  id : Nat
  email : Option JStr
  username : Option JStr
  first_name : Option (Option JStr)
  last_name : Option (Option JStr)
  is_admin : Option Bool
  is_active : Option Bool
  email_verified : Option Bool

/-- handlers/admin_update_user.ts, step 4 (email): the check runs only when
`input.email` is truthy (present and nonempty) and differs from the current
value; it looks for a different row with that email. -/
def emailConflict (db : Db) (input : AdminUpdateUserInput) (existingUser : User) : Bool :=
  match input.email with
  | none => false
  | some e =>
    if e = [] then false
    else if e = existingUser.email then false
    else !(db.users.filter (fun u => decide (u.email = e ∧ u.id ≠ input.id))).isEmpty

/-- handlers/admin_update_user.ts, step 4 (username): same shape as the email
check. -/
def usernameConflict (db : Db) (input : AdminUpdateUserInput) (existingUser : User) : Bool :=
  match input.username with
  | none => false
  | some e =>
    if e = [] then false
    else if e = existingUser.username then false
    else !(db.users.filter (fun u => decide (u.username = e ∧ u.id ≠ input.id))).isEmpty

/-- handlers/admin_update_user.ts, step 5: every field present on the input
(`!== undefined`) is written, plus `updated_at`. -/
def applyPatch (input : AdminUpdateUserInput) (now : Nat) (u : User) : User :=
  { u with
    updated_at := now,
    email := input.email.getD u.email,
    username := input.username.getD u.username,
    first_name := input.first_name.getD u.first_name,
    last_name := input.last_name.getD u.last_name,
    is_admin := input.is_admin.getD u.is_admin,
    is_active := input.is_active.getD u.is_active,
    email_verified := input.email_verified.getD u.email_verified }

/-- handlers/admin_update_user.ts `adminUpdateUser`: admin check, fetch target,
self-demotion check (`jwtPayload.user_id === input.id && input.is_admin ===
false`), uniqueness checks, then the partial update. -/
def adminUpdateUser (db : Db) (jwtPayload : JwtPayload) (input : AdminUpdateUserInput)
    (now : Nat) : Except String PublicUser × Db :=
  if jwtPayload.is_admin = false then
    (Except.error "Access denied. Admin privileges required.", db)
  else
    match db.users.filter (fun u => decide (u.id = input.id)) with
    | [] => (Except.error "User not found", db)
    | existingUser :: _ =>
      if jwtPayload.user_id = input.id ∧ input.is_admin = some false then
        (Except.error "Cannot remove admin privileges from your own account", db)
      else if emailConflict db input existingUser then
        (Except.error "Email already exists", db)
      else if usernameConflict db input existingUser then
        (Except.error "Username already exists", db)
      else
        let db1 := updateUserRow db input.id (applyPatch input now)
        (Except.ok (publicOf (applyPatch input now existingUser)), db1)

end AdminUpdateUser

namespace ResetRace

/-- One thread running handlers/reset_password.ts, tracked between its three
database operations: the select (after which the `used`/expiry checks are pure
computation on the loaded row), the user-row update, and the unconditional
`set({used: true})` update. -/
inductive Phase where
  | start
  | loaded (rt : ResetTokenRow)
  | pwWritten (rt : ResetTokenRow)
  | done (err : Option String)
  deriving DecidableEq

/-- One atomic database operation of one thread of `resetPassword`
(`Phase.done none` is a successful return, `Phase.done (some m)` a thrown
error `m`). -/
def step (tokenStr : JStr) (now : Nat) (hash : JStr) : Phase × Db → Phase × Db
  | (Phase.start, db) =>
    match db.resetTokens.filter (fun r => decide (r.token = tokenStr)) with
    | [] => (Phase.done (some "Invalid or expired reset token"), db)
    | resetToken :: _ =>
      if resetToken.used then
        (Phase.done (some "This reset token has already been used"), db)
      else if resetToken.expires_at < now then
        (Phase.done (some "Reset token has expired"), db)
      else (Phase.loaded resetToken, db)
  | (Phase.loaded rt, db) =>
    (Phase.pwWritten rt,
     updateUserRow db rt.user_id (fun u => { u with password_hash := hash, updated_at := now }))
  | (Phase.pwWritten rt, db) =>
    let marked := db.resetTokens.map
      (fun r => if r.id = rt.id then { r with used := true } else r)
    (Phase.done none, { db with resetTokens := marked })
  | (Phase.done r, db) => (Phase.done r, db)

/-- Two concurrent `resetPassword` calls on the same token string, and the
shared store. -/
structure RaceState where
  thread0 : Phase
  thread1 : Phase
  db : Db
  deriving DecidableEq

/-- Run one step of the thread the schedule picks. -/
def raceStep (tokenStr : JStr) (now : Nat) (hash : JStr) (st : RaceState) (pick : Bool) :
    RaceState :=
  if pick then
    let s := step tokenStr now hash (st.thread1, st.db)
    { st with thread1 := s.1, db := s.2 }
  else
    let s := step tokenStr now hash (st.thread0, st.db)
    { st with thread0 := s.1, db := s.2 }

/-- Run a whole schedule. -/
def run (tokenStr : JStr) (now : Nat) (hash : JStr) (sched : List Bool) (st : RaceState) :
    RaceState :=
  sched.foldl (raceStep tokenStr now hash) st

end ResetRace

/-- Model of `base64url(JSON.stringify(payload))`: an injective rendering of
the claims, kept `.`-free by writing the numbers in hex and the flag as one
character; the email rides along verbatim at the end (witnesses use dot-free
emails). -/
def modelEncPayload (p : JwtClaims) : JStr :=
  Nat.toDigits 16 p.user_id ++ ('#' :: (Nat.toDigits 16 p.iat ++ ('#' :: (Nat.toDigits 16 p.exp ++
    ('#' :: ((if p.is_admin then ['1'] else ['0']) ++ ('#' :: p.email)))))))

/-- The value of one hex character. -/
def hexVal (c : Char) : Nat :=
  if c.toNat ≤ 57 then c.toNat - 48 else c.toNat - 87

/-- Read a hex numeral. -/
def hexToNat (s : JStr) : Nat :=
  s.foldl (fun acc c => acc * 16 + hexVal c) 0

/-- Model of `JSON.parse` over the base64url-decoded payload part: the partial
inverse of `modelEncPayload`. -/
def modelDecPayload (s : JStr) : Option JwtClaims :=
  match splitOnChar '#' s with
  | [a, b, c, d, e] =>
    some { user_id := hexToNat a, email := e, is_admin := decide (d = ['1']),
           iat := hexToNat b, exp := hexToNat c }
  | _ => none

/-- The constant `base64url(JSON.stringify({alg:'HS256',typ:'JWT'}))`. -/
def modelHeaderEnc : JStr :=
  "eyJhbGciOiJIUzI1NiIsInR5cCI6IkpXVCJ9".toList

/-- The malformed stored secrets of §4.1/§8 of the spec: missing `salt:digest`
separator, an empty component, or a digest component whose length is neither a
hex SHA-256 (64) nor a hex 64-byte PBKDF2 block (128). -/
def malformedSecret (s : JStr) : Bool :=
  match splitOnChar ':' s with
  | salt :: hash :: _ =>
    salt.isEmpty || hash.isEmpty || (hash.length != 64 && hash.length != 128)
  | _ => true

/-- The thrown message of a handler result, `none` on success. -/
def errOf {α : Type} : Except String α → Option String
  | Except.ok _ => none
  | Except.error m => some m

namespace Sample

/-- A registered, active account whose secret was written by login.ts
`hashPassword` with password `password123` and salt `ab`. -/
def alice : User :=
  { id := 1, email := "a@x.com".toList, username := "alice".toList,
    password_hash := Login.hashPassword modelPbkdf2Sha256Hex ("password123".toList) ("ab".toList),
    first_name := none, last_name := none, is_admin := false, is_active := true,
    email_verified := false, last_login := none, created_at := 0, updated_at := 0 }

/-- An administrator account. -/
def boss : User :=
  { id := 2, email := "admin@x.com".toList, username := "boss".toList,
    password_hash := Login.hashPassword modelPbkdf2Sha256Hex ("password456".toList) ("cd".toList),
    first_name := none, last_name := none, is_admin := true, is_active := true,
    email_verified := true, last_login := none, created_at := 0, updated_at := 0 }

/-- A fresh reset token for alice, expiring at time 100. -/
def freshToken : ResetTokenRow :=
  { id := 1, user_id := 1, token := "tok".toList, expires_at := 100, used := false,
    created_at := 0 }

/-- An already-consumed reset token. -/
def usedToken : ResetTokenRow :=
  { id := 2, user_id := 1, token := "usedtok".toList, expires_at := 100, used := true,
    created_at := 0 }

/-- A token that expired at time 10. -/
def expiredToken : ResetTokenRow :=
  { id := 3, user_id := 1, token := "oldtok".toList, expires_at := 10, used := false,
    created_at := 0 }

/-- The store the concrete scenarios run against. -/
def db0 : Db :=
  { users := [alice, boss], resetTokens := [freshToken, usedToken, expiredToken],
    nextUserId := 3, nextTokenId := 4 }

/-- The concrete claims payload of the JWT scenarios (dot-free email, so the
model payload encoding is dot-free as the real base64url one is). -/
def claims0 : JwtClaims :=
  { user_id := 1, email := "alice@xcom".toList, is_admin := false, iat := 10, exp := 99 }

end Sample

/-- Handler results (`Except` of thrown message or value) compare decidably,
so concrete runs can be checked by evaluation. -/
instance instDecidableEqExcept {ε α : Type} [DecidableEq ε] [DecidableEq α] :
    DecidableEq (Except ε α)
  | Except.ok x, Except.ok y =>
    if h : x = y then isTrue (by rw [h])
    else isFalse (by intro hh; injection hh; contradiction)
  | Except.ok _, Except.error _ => isFalse (fun hh => Except.noConfusion hh)
  | Except.error _, Except.ok _ => isFalse (fun hh => Except.noConfusion hh)
  | Except.error e, Except.error f =>
    if h : e = f then isTrue (by rw [h])
    else isFalse (by intro hh; injection hh; contradiction)

theorem splitOnChar_of_not_mem (sep : Char) (s : List Char) (h : sep ∉ s) :
    splitOnChar sep s = [s] := by
  induction s with
  | nil => rfl
  | cons c rest ih =>
    have hc : ¬(c = sep) := fun hh => h (hh ▸ List.mem_cons_self c rest)
    have hrest : sep ∉ rest := fun hm => h (List.mem_cons_of_mem c hm)
    simp only [splitOnChar, if_neg hc, ih hrest]

theorem splitOnChar_append (sep : Char) (a b : List Char) (h : sep ∉ a) :
    splitOnChar sep (a ++ sep :: b) = a :: splitOnChar sep b := by
  induction a with
  | nil => simp [splitOnChar]
  | cons c a ih =>
    have hc : ¬(c = sep) := fun hh => h (hh ▸ List.mem_cons_self c a)
    have ha : sep ∉ a := fun hm => h (List.mem_cons_of_mem c hm)
    simp only [List.cons_append, splitOnChar, if_neg hc, List.append_eq, ih ha]

theorem digitChar_big (n : Nat) (h : 16 ≤ n) : Nat.digitChar n = '*' := by
  have ne : ∀ m : Nat, m < 16 → ¬(n = m) := fun m hm he => by omega
  unfold Nat.digitChar
  rw [if_neg (ne 0 (by norm_num)), if_neg (ne 1 (by norm_num)),
    if_neg (ne 2 (by norm_num)), if_neg (ne 3 (by norm_num)),
    if_neg (ne 4 (by norm_num)), if_neg (ne 5 (by norm_num)),
    if_neg (ne 6 (by norm_num)), if_neg (ne 7 (by norm_num)),
    if_neg (ne 8 (by norm_num)), if_neg (ne 9 (by norm_num)),
    if_neg (ne 10 (by norm_num)), if_neg (ne 11 (by norm_num)),
    if_neg (ne 12 (by norm_num)), if_neg (ne 13 (by norm_num)),
    if_neg (ne 14 (by norm_num)), if_neg (ne 15 (by norm_num))]

theorem digitChar_ne_dot (n : Nat) : Nat.digitChar n ≠ '.' := by
  rcases Nat.lt_or_ge n 16 with hlt | hge
  · interval_cases n <;> decide
  · rw [digitChar_big n hge]
    decide

theorem hexDigits_length (w n : Nat) : (hexDigits w n).length = w := by
  simp [hexDigits]

theorem dot_not_mem_hexDigits (w n : Nat) : ('.') ∉ hexDigits w n := by
  intro hm
  simp only [hexDigits, List.mem_map] at hm
  obtain ⟨i, _, hi⟩ := hm
  exact digitChar_ne_dot _ hi

theorem hexDigits_ne_nil (w n : Nat) (hw : w ≠ 0) : hexDigits w n ≠ [] := by
  intro hh
  have hl := hexDigits_length w n
  rw [hh] at hl
  exact hw hl.symm

theorem modelSha256Hex_length (s : JStr) : (modelSha256Hex s).length = 64 :=
  hexDigits_length 64 _

theorem modelPbkdf2Sha256Hex_length (p s : JStr) :
    (modelPbkdf2Sha256Hex p s).length = 128 :=
  hexDigits_length 128 _

theorem modelSha256B64url_not_dot (m : JStr) : ('.') ∉ modelSha256B64url m :=
  dot_not_mem_hexDigits 43 _

theorem modelSha256B64url_ne_nil (m : JStr) : modelSha256B64url m ≠ [] :=
  hexDigits_ne_nil 43 _ (by decide)

/-- C2: every request dispatched through `authenticatedProcedure` reaches its
handler with the constant mock payload `{user_id: 1, email: 'user@example.com',
is_admin: false}`, whatever credential (header) the caller presents, and the
admin gate therefore rejects every caller with 'Admin access required'. -/
theorem c2_admin_routes_always_fail (authHeader : Option JStr) :
    authenticatedCtx authHeader =
      { user_id := 1, email := "user@example.com".toList, is_admin := false } ∧
    (∀ other : Option JStr, authenticatedCtx other = authenticatedCtx authHeader) ∧
    adminPipeline authHeader = Except.error "Admin access required" :=
  ⟨rfl, fun _ => rfl, rfl⟩

/-- C1: the hashing call sites do not agree on one KDF — a secret stored by
register.ts (PBKDF2-SHA512), by change_password.ts `createPasswordHash`
(salted bare SHA-256) or by admin_create_user.ts (salt-prefixed bare SHA-256)
does not verify under login.ts `verifyPassword` (PBKDF2-SHA256), while a
secret written by login.ts own `hashPassword` does. Evaluated on password
`password123` and salt `ab` over the model digests. -/
theorem c1_hashing_sites_disagree :
    Login.verifyPassword modelPbkdf2Sha256Hex ("password123".toList)
      (Register.hashPassword modelPbkdf2Sha512Hex ("password123".toList) ("ab".toList)) = false ∧
    Login.verifyPassword modelPbkdf2Sha256Hex ("password123".toList)
      (ChangePassword.createPasswordHash modelSha256Hex ("password123".toList) ("ab".toList)) = false ∧
    Login.verifyPassword modelPbkdf2Sha256Hex ("password123".toList)
      (AdminCreateUser.password_hash modelSha256Hex ("ab".toList) ("password123".toList)) = false ∧
    Login.verifyPassword modelPbkdf2Sha256Hex ("password123".toList)
      (Login.hashPassword modelPbkdf2Sha256Hex ("password123".toList) ("ab".toList)) = true := by
  decide

/-- C3 counterexample: the claim says `resetPassword` fails with Expired
whenever `now >= expires_at`, but at the boundary `now = expires_at` the code
(`expires_at < now`) resets successfully: the sample token expires at 100 and
consuming it at time 100 succeeds. -/
theorem c3_boundary_now_eq_expiry :
    Sample.freshToken.expires_at ≤ 100 ∧
    (ResetPassword.resetPassword modelPbkdf2Sha512Hex Sample.db0
      { token := "tok".toList, new_password := "newpassword1".toList } 100 ("ef".toList)).1 =
      Except.ok { success := true, message := some "Password has been reset successfully. Please log in with your new password." } :=
  ⟨by decide, by decide⟩

/-- C3 (amended): for every stored state and token string, `resetPassword`
fails with NotFound when no stored token has that string, with AlreadyUsed
when the first such token is used, with Expired when `now > expires_at`
(strictly after expiry — at `now = expires_at` the reset still goes through),
and otherwise marks the token used, replaces the owning account's password
secret, and returns success — the checks applied in that order. -/
theorem c3_reset_password_checks (pbkdf2 : JStr → JStr → JStr) (db : Db)
    (input : ResetPassword.ResetPasswordInput) (now : Nat) (salt : JStr) :
    (db.resetTokens.filter (fun r => decide (r.token = input.token)) = [] →
      ResetPassword.resetPassword pbkdf2 db input now salt =
        (Except.error "Invalid or expired reset token", db)) ∧
    (∀ rt l, db.resetTokens.filter (fun r => decide (r.token = input.token)) = rt :: l →
      rt.used = true →
      ResetPassword.resetPassword pbkdf2 db input now salt =
        (Except.error "This reset token has already been used", db)) ∧
    (∀ rt l, db.resetTokens.filter (fun r => decide (r.token = input.token)) = rt :: l →
      rt.used = false → rt.expires_at < now →
      ResetPassword.resetPassword pbkdf2 db input now salt =
        (Except.error "Reset token has expired", db)) ∧
    (∀ rt l, db.resetTokens.filter (fun r => decide (r.token = input.token)) = rt :: l →
      rt.used = false → now ≤ rt.expires_at →
      ResetPassword.resetPassword pbkdf2 db input now salt =
        (Except.ok { success := true, message := some "Password has been reset successfully. Please log in with your new password." },
         { db with
             users := db.users.map (fun u =>
               if u.id = rt.user_id then
                 { u with
                     password_hash := salt ++ (':' :: pbkdf2 input.new_password salt),
                     updated_at := now }
               else u),
             resetTokens := db.resetTokens.map (fun r =>
               if r.id = rt.id then { r with used := true } else r) })) := by
  refine ⟨?_, ?_, ?_, ?_⟩
  · intro hf
    unfold ResetPassword.resetPassword
    rw [hf]
  · intro rt l hf hused
    unfold ResetPassword.resetPassword
    rw [hf]
    simp [hused]
  · intro rt l hf hused hexp
    unfold ResetPassword.resetPassword
    rw [hf]
    simp [hused, hexp]
  · intro rt l hf hused hle
    unfold ResetPassword.resetPassword
    rw [hf]
    simp [hused, not_lt.mpr hle, updateUserRow]

/-- C3 witness: the four branches of `c3_reset_password_checks` on the sample
store at time 50 — unknown string, used token, expired token, fresh token. -/
theorem c3_reset_password_checks_witness :
    ResetPassword.resetPassword modelPbkdf2Sha512Hex Sample.db0
      { token := "missing".toList, new_password := "newpassword1".toList } 50 ("ef".toList) =
      (Except.error "Invalid or expired reset token", Sample.db0) ∧
    ResetPassword.resetPassword modelPbkdf2Sha512Hex Sample.db0
      { token := "usedtok".toList, new_password := "newpassword1".toList } 50 ("ef".toList) =
      (Except.error "This reset token has already been used", Sample.db0) ∧
    ResetPassword.resetPassword modelPbkdf2Sha512Hex Sample.db0
      { token := "oldtok".toList, new_password := "newpassword1".toList } 50 ("ef".toList) =
      (Except.error "Reset token has expired", Sample.db0) ∧
    (ResetPassword.resetPassword modelPbkdf2Sha512Hex Sample.db0
      { token := "tok".toList, new_password := "newpassword1".toList } 50 ("ef".toList)).1 =
      Except.ok { success := true, message := some "Password has been reset successfully. Please log in with your new password." } := by
  refine ⟨?_, ?_, ?_, ?_⟩
  · exact (c3_reset_password_checks modelPbkdf2Sha512Hex Sample.db0
      { token := "missing".toList, new_password := "newpassword1".toList } 50 ("ef".toList)).1
      (by decide)
  · exact (c3_reset_password_checks modelPbkdf2Sha512Hex Sample.db0
      { token := "usedtok".toList, new_password := "newpassword1".toList } 50 ("ef".toList)).2.1
      Sample.usedToken [] (by decide) (by decide)
  · exact (c3_reset_password_checks modelPbkdf2Sha512Hex Sample.db0
      { token := "oldtok".toList, new_password := "newpassword1".toList } 50 ("ef".toList)).2.2.1
      Sample.expiredToken [] (by decide) (by decide) (by decide)
  · exact congrArg Prod.fst ((c3_reset_password_checks modelPbkdf2Sha512Hex Sample.db0
      { token := "tok".toList, new_password := "newpassword1".toList } 50 ("ef".toList)).2.2.2
      Sample.freshToken [] (by decide) (by decide) (by decide))

/-- C4 counterexample: the claim says verification fails with TokenExpired
whenever `now >= exp`, but at the boundary `now = exp` the code
(`payload.exp < now`) still accepts the token and returns its claims. -/
theorem c4_boundary_now_eq_exp :
    Sample.claims0.exp ≤ 99 ∧
    verifyJWT modelDecPayload modelSha256B64url
      (generateJWT modelEncPayload modelSha256B64url modelHeaderEnc Sample.claims0 ("secret".toList))
      ("secret".toList) 99 = Except.ok Sample.claims0 :=
  ⟨by decide, by decide⟩

/-- C4 (amended): for every claims payload (with a nonzero `exp`) and secret,
`verifyJWT (generateJWT payload secret) secret` returns claims equal to the
input payload whenever `now ≤ exp` (including the boundary `now = exp`), and
fails with TokenExpired whenever `now > exp` (strictly after). The encoding
hypotheses state what the real base64url/JSON pair provides: a dot-free,
nonempty rendering that decodes back. -/
theorem c4_jwt_roundtrip (encPayload : JwtClaims → JStr) (decPayload : JStr → Option JwtClaims)
    (sha256B64url : JStr → JStr) (headerEnc secret : JStr) (payload : JwtClaims) (now : Nat)
    (hdec : decPayload (encPayload payload) = some payload)
    (hpd : ('.') ∉ encPayload payload) (hpe : encPayload payload ≠ [])
    (hhd : ('.') ∉ headerEnc) (hhe : headerEnc ≠ [])
    (hsd : ∀ m, ('.') ∉ sha256B64url m) (hse : ∀ m, sha256B64url m ≠ [])
    (hexp : payload.exp ≠ 0) :
    (now ≤ payload.exp →
      verifyJWT decPayload sha256B64url
        (generateJWT encPayload sha256B64url headerEnc payload secret) secret now =
        Except.ok payload) ∧
    (payload.exp < now →
      verifyJWT decPayload sha256B64url
        (generateJWT encPayload sha256B64url headerEnc payload secret) secret now =
        Except.error "Token expired") := by
  have hsplit : splitOnChar '.' (generateJWT encPayload sha256B64url headerEnc payload secret) =
      [headerEnc, encPayload payload,
        sha256B64url (headerEnc ++ ('.' :: (encPayload payload ++ ('.' :: secret))))] := by
    simp only [generateJWT]
    rw [splitOnChar_append _ _ _ hhd, splitOnChar_append _ _ _ hpd,
      splitOnChar_of_not_mem _ _ (hsd _)]
  constructor
  · intro hle
    unfold verifyJWT
    rw [hsplit]
    simp [hhe, hpe, hse _, hdec, not_lt.mpr hle]
  · intro hlt
    unfold verifyJWT
    rw [hsplit]
    simp [hhe, hpe, hse _, hdec, hexp, hlt]

/-- C4 witness: the sample claims (exp 99) under the model codec — verified at
time 50 the round trip returns them, at time 150 verification reports Token
expired. -/
theorem c4_jwt_roundtrip_witness :
    verifyJWT modelDecPayload modelSha256B64url
      (generateJWT modelEncPayload modelSha256B64url modelHeaderEnc Sample.claims0 ("secret".toList))
      ("secret".toList) 50 = Except.ok Sample.claims0 ∧
    verifyJWT modelDecPayload modelSha256B64url
      (generateJWT modelEncPayload modelSha256B64url modelHeaderEnc Sample.claims0 ("secret".toList))
      ("secret".toList) 150 = Except.error "Token expired" := by
  constructor
  · exact (c4_jwt_roundtrip modelEncPayload modelDecPayload modelSha256B64url modelHeaderEnc
      ("secret".toList) Sample.claims0 50 (by decide) (by decide) (by decide) (by decide)
      (by decide) modelSha256B64url_not_dot modelSha256B64url_ne_nil (by decide)).1 (by decide)
  · exact (c4_jwt_roundtrip modelEncPayload modelDecPayload modelSha256B64url modelHeaderEnc
      ("secret".toList) Sample.claims0 150 (by decide) (by decide) (by decide) (by decide)
      (by decide) modelSha256B64url_not_dot modelSha256B64url_ne_nil (by decide)).2 (by decide)

/-- C5: for every store, the login failure for an unknown email and the login
failure for a known email with a non-verifying password are the identical
`Invalid email or password` error, and neither run changes the store — the two
failures are indistinguishable to the caller. -/
theorem c5_login_failures_indistinguishable
    (pbkdf2 : JStr → JStr → JStr) (encPayload : JwtClaims → JStr)
    (sha256B64url : JStr → JStr) (headerEnc jwtSecret : JStr)
    (db1 db2 : Db) (i1 i2 : Login.LoginInput) (now1 now2 : Nat)
    (h1 : db1.users.filter (fun u => decide (u.email = i1.email)) = [])
    (u : User) (l : List User)
    (h2 : db2.users.filter (fun v => decide (v.email = i2.email)) = u :: l)
    (h3 : Login.verifyPassword pbkdf2 i2.password u.password_hash = false) :
    (Login.login pbkdf2 encPayload sha256B64url headerEnc jwtSecret db1 i1 now1).1 =
      Except.error "Invalid email or password" ∧
    (Login.login pbkdf2 encPayload sha256B64url headerEnc jwtSecret db2 i2 now2).1 =
      (Login.login pbkdf2 encPayload sha256B64url headerEnc jwtSecret db1 i1 now1).1 ∧
    (Login.login pbkdf2 encPayload sha256B64url headerEnc jwtSecret db1 i1 now1).2 = db1 ∧
    (Login.login pbkdf2 encPayload sha256B64url headerEnc jwtSecret db2 i2 now2).2 = db2 := by
  have e1 : Login.login pbkdf2 encPayload sha256B64url headerEnc jwtSecret db1 i1 now1 =
      (Except.error "Invalid email or password", db1) := by
    unfold Login.login
    rw [h1]
  have e2 : Login.login pbkdf2 encPayload sha256B64url headerEnc jwtSecret db2 i2 now2 =
      (Except.error "Invalid email or password", db2) := by
    unfold Login.login
    rw [h2]
    simp [h3]
  rw [e1, e2]
  exact ⟨rfl, rfl, rfl, rfl⟩

/-- C5 witness: on the sample store, login with an unknown email and login
against alice with a wrong password produce the same error value. -/
theorem c5_login_failures_witness :
    (Login.login modelPbkdf2Sha256Hex modelEncPayload modelSha256B64url modelHeaderEnc
      ("secret".toList) Sample.db0
      { email := "nobody@x.com".toList, password := "password123".toList } 50).1 =
      Except.error "Invalid email or password" ∧
    (Login.login modelPbkdf2Sha256Hex modelEncPayload modelSha256B64url modelHeaderEnc
      ("secret".toList) Sample.db0
      { email := "a@x.com".toList, password := "wrongpassword".toList } 60).1 =
      (Login.login modelPbkdf2Sha256Hex modelEncPayload modelSha256B64url modelHeaderEnc
        ("secret".toList) Sample.db0
        { email := "nobody@x.com".toList, password := "password123".toList } 50).1 := by
  have h := c5_login_failures_indistinguishable modelPbkdf2Sha256Hex modelEncPayload
    modelSha256B64url modelHeaderEnc ("secret".toList) Sample.db0 Sample.db0
    { email := "nobody@x.com".toList, password := "password123".toList }
    { email := "a@x.com".toList, password := "wrongpassword".toList } 50 60
    (by decide) Sample.alice [] (by decide) (by decide)
  exact ⟨h.1, h.2.1⟩

/-- C6: `register` fails with a Conflict naming the colliding field whenever an
existing account already has the requested email or username (leaving the
store unchanged), and otherwise persists exactly one new account with
`is_admin=false, is_active=true, email_verified=false` and the hashed secret,
returning the account without the secret together with a session token. -/
theorem c6_register_conflict_or_create (pbkdf2 : JStr → JStr → JStr)
    (encPayload : JwtClaims → JStr) (hmac : JStr → JStr → JStr)
    (headerEnc jwtSecret : JStr) (db : Db) (input : Register.RegisterInput)
    (now : Nat) (salt : JStr) :
    ((∃ v ∈ db.users, v.email = input.email ∨ v.username = input.username) →
      (Register.register pbkdf2 encPayload hmac headerEnc jwtSecret db input now salt).2 = db ∧
      (((Register.register pbkdf2 encPayload hmac headerEnc jwtSecret db input now salt).1 =
          Except.error "User with this email already exists" ∧
          ∃ v ∈ db.users, v.email = input.email) ∨
        ((Register.register pbkdf2 encPayload hmac headerEnc jwtSecret db input now salt).1 =
          Except.error "User with this username already exists" ∧
          ∃ v ∈ db.users, v.username = input.username))) ∧
    ((∀ v ∈ db.users, v.email ≠ input.email ∧ v.username ≠ input.username) →
      Register.register pbkdf2 encPayload hmac headerEnc jwtSecret db input now salt =
        (Except.ok
          { user := publicOf
              { id := db.nextUserId, email := input.email, username := input.username,
                password_hash := Register.hashPassword pbkdf2 input.password salt,
                first_name := input.first_name, last_name := input.last_name,
                is_admin := false, is_active := true, email_verified := false,
                last_login := none, created_at := now, updated_at := now },
            token := Register.createJWT encPayload hmac headerEnc
              { user_id := db.nextUserId, email := input.email, is_admin := false }
              jwtSecret now },
          { db with
              users := db.users ++
                [{ id := db.nextUserId, email := input.email, username := input.username,
                   password_hash := Register.hashPassword pbkdf2 input.password salt,
                   first_name := input.first_name, last_name := input.last_name,
                   is_admin := false, is_active := true, email_verified := false,
                   last_login := none, created_at := now, updated_at := now }],
              nextUserId := db.nextUserId + 1 })) := by
  constructor
  · intro hex
    have hne : db.users.filter
        (fun u => decide (u.email = input.email ∨ u.username = input.username)) ≠ [] := by
      obtain ⟨v, hv, hvp⟩ := hex
      intro hnil
      have hmem : v ∈ db.users.filter
          (fun u => decide (u.email = input.email ∨ u.username = input.username)) :=
        List.mem_filter.mpr ⟨hv, by simpa using hvp⟩
      rw [hnil] at hmem
      exact absurd hmem (List.not_mem_nil v)
    cases hf : db.users.filter
        (fun u => decide (u.email = input.email ∨ u.username = input.username)) with
    | nil => exact absurd hf hne
    | cons w l =>
      have hmemw : w ∈ db.users.filter
          (fun u => decide (u.email = input.email ∨ u.username = input.username)) := by
        rw [hf]
        exact List.mem_cons_self w l
      have hw : w ∈ db.users := (List.mem_filter.mp hmemw).1
      have hwp : w.email = input.email ∨ w.username = input.username := by
        have hp := (List.mem_filter.mp hmemw).2
        simpa using hp
      have hreg : Register.register pbkdf2 encPayload hmac headerEnc jwtSecret db input now salt =
          (Except.error ("User with this " ++
            (if w.email = input.email then "email" else "username") ++ " already exists"), db) := by
        unfold Register.register
        rw [hf]
      constructor
      · rw [hreg]
      · by_cases hwe : w.email = input.email
        · refine Or.inl ⟨?_, ⟨w, hw, hwe⟩⟩
          rw [hreg, if_pos hwe]
          rfl
        · refine Or.inr ⟨?_, ⟨w, hw, hwp.resolve_left hwe⟩⟩
          rw [hreg, if_neg hwe]
          rfl
  · intro hall
    have hf : db.users.filter
        (fun u => decide (u.email = input.email ∨ u.username = input.username)) = [] := by
      rw [List.filter_eq_nil_iff]
      intro v hv
      obtain ⟨he, hu⟩ := hall v hv
      simp [he, hu]
    unfold Register.register
    rw [hf]

/-- C6 witness: on the sample store, registering with alice's email and a
fresh username is rejected with the conflict message naming the email field —
the field that actually collided — and leaves the store unchanged; registering
a fresh email and username creates the expected account and token. -/
theorem c6_register_witness :
    (Register.register modelPbkdf2Sha512Hex modelEncPayload modelHmacSha256B64url
      modelHeaderEnc ("secret".toList) Sample.db0
      { email := "a@x.com".toList, username := "newbie".toList,
        password := "password789".toList, first_name := none, last_name := none }
      50 ("gh".toList)).1 = Except.error "User with this email already exists" ∧
    (Register.register modelPbkdf2Sha512Hex modelEncPayload modelHmacSha256B64url
      modelHeaderEnc ("secret".toList) Sample.db0
      { email := "a@x.com".toList, username := "newbie".toList,
        password := "password789".toList, first_name := none, last_name := none }
      50 ("gh".toList)).2 = Sample.db0 ∧
    (Register.register modelPbkdf2Sha512Hex modelEncPayload modelHmacSha256B64url
      modelHeaderEnc ("secret".toList) Sample.db0
      { email := "new@x.com".toList, username := "newbie".toList,
        password := "password789".toList, first_name := none, last_name := none }
      50 ("gh".toList)).1 =
      Except.ok
        { user := publicOf
            { id := 3, email := "new@x.com".toList, username := "newbie".toList,
              password_hash := Register.hashPassword modelPbkdf2Sha512Hex
                ("password789".toList) ("gh".toList),
              first_name := none, last_name := none, is_admin := false, is_active := true,
              email_verified := false, last_login := none, created_at := 50, updated_at := 50 },
          token := Register.createJWT modelEncPayload modelHmacSha256B64url modelHeaderEnc
            { user_id := 3, email := "new@x.com".toList, is_admin := false }
            ("secret".toList) 50 } := by
  have h := (c6_register_conflict_or_create modelPbkdf2Sha512Hex modelEncPayload
    modelHmacSha256B64url modelHeaderEnc ("secret".toList) Sample.db0
    { email := "a@x.com".toList, username := "newbie".toList,
      password := "password789".toList, first_name := none, last_name := none }
    50 ("gh".toList)).1 ⟨Sample.alice, by decide, by decide⟩
  refine ⟨?_, h.1, ?_⟩
  · rcases h.2 with ⟨hmsg, _⟩ | ⟨_, hv⟩
    · exact hmsg
    · exact absurd hv (by decide)
  · exact congrArg Prod.fst ((c6_register_conflict_or_create modelPbkdf2Sha512Hex modelEncPayload
      modelHmacSha256B64url modelHeaderEnc ("secret".toList) Sample.db0
      { email := "new@x.com".toList, username := "newbie".toList,
        password := "password789".toList, first_name := none, last_name := none }
      50 ("gh".toList)).2 (by decide))

/-- C7: when an admin caller targets their own account id with a patch that
sets `is_admin = false`, `adminUpdateUser` fails with the self-demotion error
and leaves the store — in particular the target account — unchanged. -/
theorem c7_self_demotion_forbidden (db : Db) (jwtPayload : JwtPayload)
    (input : AdminUpdateUser.AdminUpdateUserInput) (now : Nat)
    (hadmin : jwtPayload.is_admin = true)
    (hself : input.id = jwtPayload.user_id)
    (hdemote : input.is_admin = some false)
    (hexists : db.users.filter (fun u => decide (u.id = input.id)) ≠ []) :
    AdminUpdateUser.adminUpdateUser db jwtPayload input now =
      (Except.error "Cannot remove admin privileges from your own account", db) := by
  unfold AdminUpdateUser.adminUpdateUser
  cases hf : db.users.filter (fun u => decide (u.id = input.id)) with
  | nil => exact absurd hf hexists
  | cons w l => simp [hadmin, hf, hself, hdemote]

/-- C7 witness: the sample admin (id 2) patching their own record with
`is_admin = false` is rejected and the store is untouched. -/
theorem c7_self_demotion_forbidden_witness :
    AdminUpdateUser.adminUpdateUser Sample.db0
      { user_id := 2, email := "admin@x.com".toList, is_admin := true }
      { id := 2, email := none, username := none, first_name := none, last_name := none,
        is_admin := some false, is_active := none, email_verified := none } 50 =
      (Except.error "Cannot remove admin privileges from your own account", Sample.db0) :=
  c7_self_demotion_forbidden Sample.db0
    { user_id := 2, email := "admin@x.com".toList, is_admin := true }
    { id := 2, email := none, username := none, first_name := none, last_name := none,
      is_admin := some false, is_active := none, email_verified := none } 50
    (by decide) (by decide) (by decide) (by decide)

/-- C8: on every malformed stored secret — no `salt:digest` separator, an
empty component, or a digest component of the wrong length — password
verification returns false and never throws: change_password.ts
`verifyPassword` answers `Except.ok false` (the guarded `timingSafeEqual`
RangeError is unreachable) and login.ts `verifyPassword` answers `false`.
The two hypotheses record the digest output lengths (64 hex chars for
SHA-256, 128 for the 64-byte PBKDF2 blocks). -/
theorem c8_malformed_secret_verifies_false (sha256Hex : JStr → JStr)
    (pbkdf2Sha256Hex : JStr → JStr → JStr)
    (h64 : ∀ s, (sha256Hex s).length = 64)
    (h128 : ∀ p s, (pbkdf2Sha256Hex p s).length = 128)
    (password s : JStr) (hm : malformedSecret s = true) :
    ChangePassword.verifyPassword sha256Hex password s = Except.ok false ∧
    Login.verifyPassword pbkdf2Sha256Hex password s = false := by
  unfold malformedSecret at hm
  unfold ChangePassword.verifyPassword Login.verifyPassword
  cases hsp : splitOnChar ':' s with
  | nil => exact ⟨rfl, rfl⟩
  | cons salt tail =>
    cases tail with
    | nil => exact ⟨rfl, rfl⟩
    | cons hash rest =>
      rw [hsp] at hm
      simp only [List.isEmpty_iff, Bool.or_eq_true, Bool.and_eq_true, bne_iff_ne,
        decide_eq_true_eq] at hm
      by_cases hor : salt = [] ∨ hash = []
      · constructor
        · simp [hor]
        · simp [hor]
      · have hlen : hash.length ≠ 64 ∧ hash.length ≠ 128 := by
          rcases hm with (hsalt | hhash) | hlen
          · exact absurd (Or.inl hsalt) hor
          · exact absurd (Or.inr hhash) hor
          · exact hlen
        constructor
        · have hl : (ChangePassword.hashPassword sha256Hex password salt).length = 64 :=
            h64 (password ++ salt)
          simp [hor, hl, Ne.symm hlen.1]
        · have hne : hash ≠ pbkdf2Sha256Hex password salt := by
            intro hh
            exact hlen.2 (by rw [hh, h128 password salt])
          simp [hor, hne]

/-- C8 witness: the three malformed shapes — no separator, an empty salt
component, and a short digest component — all verify false under both sites
over the model digests. -/
theorem c8_malformed_secret_witness :
    (malformedSecret ("nosep".toList) = true ∧
      ChangePassword.verifyPassword modelSha256Hex ("pw".toList) ("nosep".toList) =
        Except.ok false ∧
      Login.verifyPassword modelPbkdf2Sha256Hex ("pw".toList) ("nosep".toList) = false) ∧
    (malformedSecret (":abcd".toList) = true ∧
      ChangePassword.verifyPassword modelSha256Hex ("pw".toList) (":abcd".toList) =
        Except.ok false ∧
      Login.verifyPassword modelPbkdf2Sha256Hex ("pw".toList) (":abcd".toList) = false) ∧
    (malformedSecret ("ab:cd".toList) = true ∧
      ChangePassword.verifyPassword modelSha256Hex ("pw".toList) ("ab:cd".toList) =
        Except.ok false ∧
      Login.verifyPassword modelPbkdf2Sha256Hex ("pw".toList) ("ab:cd".toList) = false) := by
  refine ⟨⟨by decide, ?_⟩, ⟨by decide, ?_⟩, ⟨by decide, ?_⟩⟩
  · exact c8_malformed_secret_verifies_false modelSha256Hex modelPbkdf2Sha256Hex
      modelSha256Hex_length modelPbkdf2Sha256Hex_length ("pw".toList) ("nosep".toList)
      (by decide)
  · exact c8_malformed_secret_verifies_false modelSha256Hex modelPbkdf2Sha256Hex
      modelSha256Hex_length modelPbkdf2Sha256Hex_length ("pw".toList) (":abcd".toList)
      (by decide)
  · exact c8_malformed_secret_verifies_false modelSha256Hex modelPbkdf2Sha256Hex
      modelSha256Hex_length modelPbkdf2Sha256Hex_length ("pw".toList) ("ab:cd".toList)
      (by decide)

/-- C9: `forgotPassword` returns the same `{success: true}` response with the
identical message whether or not an account has the email; when none does the
store is unchanged, and when one does the two runs differ only in the inserted
reset-token row for that account. -/
theorem c9_forgot_password_uniform_response (db : Db) (email tok : JStr) (now : Nat) :
    (ForgotPassword.forgotPassword db email tok now).1 =
      Except.ok { success := true, message := some "If an account with that email exists, a password reset link has been sent." } ∧
    (db.users.filter (fun u => decide (u.email = email)) = [] →
      (ForgotPassword.forgotPassword db email tok now).2 = db) ∧
    (∀ u l, db.users.filter (fun v => decide (v.email = email)) = u :: l →
      (ForgotPassword.forgotPassword db email tok now).2 =
        { db with
            resetTokens := db.resetTokens ++
              [{ id := db.nextTokenId, user_id := u.id, token := tok,
                 expires_at := now + 3600, used := false, created_at := now }],
            nextTokenId := db.nextTokenId + 1 }) := by
  refine ⟨?_, ?_, ?_⟩
  · unfold ForgotPassword.forgotPassword
    cases hf : db.users.filter (fun u => decide (u.email = email)) with
    | nil => rfl
    | cons u l => rfl
  · intro hf
    unfold ForgotPassword.forgotPassword
    rw [hf]
  · intro u l hf
    unfold ForgotPassword.forgotPassword
    rw [hf]

/-- C9 witness: an unknown email leaves the sample store unchanged, a known
one appends exactly one token row; the uniform-response conjunct holds by the
theorem with no hypothesis. -/
theorem c9_forgot_password_witness :
    (ForgotPassword.forgotPassword Sample.db0 ("nobody@x.com".toList) ("tk".toList) 50).2 =
      Sample.db0 ∧
    (ForgotPassword.forgotPassword Sample.db0 ("a@x.com".toList) ("tk".toList) 50).2 =
      { Sample.db0 with
          resetTokens := Sample.db0.resetTokens ++
            [{ id := 4, user_id := 1, token := "tk".toList, expires_at := 3650,
               used := false, created_at := 50 }],
          nextTokenId := 5 } := by
  constructor
  · exact (c9_forgot_password_uniform_response Sample.db0 ("nobody@x.com".toList)
      ("tk".toList) 50).2.1 (by decide)
  · exact (c9_forgot_password_uniform_response Sample.db0 ("a@x.com".toList)
      ("tk".toList) 50).2.2 Sample.alice [] (by decide)

/-- Running one thread's three database operations back to back reproduces
`resetPassword` exactly: the race model refines the handler. -/
theorem resetRace_sequential_agrees (pbkdf2 : JStr → JStr → JStr) (db : Db)
    (input : ResetPassword.ResetPasswordInput) (now : Nat) (salt : JStr) :
    ResetRace.step input.token now (salt ++ (':' :: pbkdf2 input.new_password salt))
      (ResetRace.step input.token now (salt ++ (':' :: pbkdf2 input.new_password salt))
        (ResetRace.step input.token now (salt ++ (':' :: pbkdf2 input.new_password salt))
          (ResetRace.Phase.start, db))) =
      (ResetRace.Phase.done (errOf (ResetPassword.resetPassword pbkdf2 db input now salt).1),
       (ResetPassword.resetPassword pbkdf2 db input now salt).2) := by
  cases hf : db.resetTokens.filter (fun r => decide (r.token = input.token)) with
  | nil => simp [ResetRace.step, ResetPassword.resetPassword, hf, errOf]
  | cons rt l =>
    by_cases hused : rt.used
    · simp [ResetRace.step, ResetPassword.resetPassword, hf, hused, errOf]
    · by_cases hexp : now ≤ rt.expires_at
      · simp [ResetRace.step, ResetPassword.resetPassword, hf, hused, not_lt.mpr hexp, errOf]
      · have hlt : rt.expires_at < now := not_le.mp hexp
        simp [ResetRace.step, ResetPassword.resetPassword, hf, hused, hlt, errOf]

/-- C10: reset-token consumption is not a compare-and-swap — in the schedule
where both threads load the token row before either writes, the two concurrent
`resetPassword` calls on the same fresh token BOTH return success, and neither
observes AlreadyUsed. Evaluated on the sample store's fresh token at time 50. -/
theorem c10_concurrent_consumes_both_succeed :
    (ResetRace.run ("tok".toList) 50 ("ef:newhash".toList)
      [false, true, false, false, true, true]
      { thread0 := ResetRace.Phase.start, thread1 := ResetRace.Phase.start,
        db := Sample.db0 }).thread0 = ResetRace.Phase.done none ∧
    (ResetRace.run ("tok".toList) 50 ("ef:newhash".toList)
      [false, true, false, false, true, true]
      { thread0 := ResetRace.Phase.start, thread1 := ResetRace.Phase.start,
        db := Sample.db0 }).thread1 = ResetRace.Phase.done none :=
  ⟨by decide, by decide⟩
